import Mathlib

/-!
Shallow embedding of the stress-analysis core of the `docter_portal` repository
(`src/stress_analysis/services.py` and `src/stress_analysis/views.py`).

Conventions of the embedding:
* Python `datetime` values are modelled as integers (seconds since an epoch);
  `dateOf` extracts the calendar day as `Int.ediv t 86400` (floor division by a
  positive constant, matching the `.date()` component: subtracting a whole
  number of days from a naive datetime shifts the date by exactly that number).
* Python floats are modelled exactly as rationals `ℚ` (reals `ℝ` where the
  source takes a square root); decimal literals such as `0.5`, `0.3`, `0.001`
  become the exact rationals `5/10`, `3/10`, `1/1000`.
* `datetime.now()` is an environment input, passed as the explicit parameter
  `now`.
* Python `round(x, d)` (round-half-to-even to `d` decimal digits) is modelled
  by `round1` / `pythonRound2` below, idealised over exact arithmetic.
* The `'source'` string field of a raw sample ( `'google_fit'` or `'demo'` )
  becomes the inductive `Source`; `other` stands for any further value, which
  the filters in the source compare unequal to both strings.
-/

namespace DocterPortal

/-- Seconds per calendar day; `timedelta(days=1)` is this many seconds. -/
def SECONDS_PER_DAY : ℤ := 86400

/-- The calendar day of a timestamp: floor division by `SECONDS_PER_DAY`
(`Int.ediv` with a positive divisor is floor division). This models
`timestamp.date()`. -/
def dateOf (t : ℤ) : ℤ := Int.ediv t SECONDS_PER_DAY

/-- Provenance tag of a raw sample, the `'source'` field of the Python dicts. -/
inductive Source where
  | google_fit
  | demo
  | other
deriving DecidableEq, Repr

/-- One heart-rate observation (`{'timestamp', 'heart_rate', 'source'}`). -/
structure HeartRateSample where
  timestamp : ℤ
  heart_rate : ℚ
  source : Source
deriving DecidableEq, Repr

/-- One sleep session (`{'start_time', 'end_time', 'duration_hours', 'source'}`;
the `'type'` field is never read by `process_health_data` and is omitted). -/
structure SleepSample where
  start_time : ℤ
  end_time : ℤ
  duration_hours : ℚ
  source : Source
deriving DecidableEq, Repr

/-- One step-count observation (`{'timestamp', 'steps', 'source'}`). -/
structure StepSample where
  timestamp : ℤ
  steps : ℤ
  source : Source
deriving DecidableEq, Repr

/-- One calories observation (`{'timestamp', 'calories', 'source'}`). -/
structure CalorieSample where
  timestamp : ℤ
  calories : ℚ
  source : Source
deriving DecidableEq, Repr

/-- Stress category labels returned by `categorize_stress`. -/
inductive Category where
  | LOW
  | MODERATE
  | HIGH
  | VERY_HIGH
deriving DecidableEq, Repr

/-- One element of the list returned by `process_health_data`. The Python
`'date'` string (`strftime('%Y-%m-%d')`) is modelled as the day number
`dateOf timestamp`; the `'data_sources'` sub-dict is flattened into four
fields. -/
structure DailyEntry where
  date : ℤ
  timestamp : ℤ
  heart_rate : ℚ
  sleep_duration : ℚ
  steps : ℤ
  calories : ℚ
  stress_level : ℚ
  stress_category : Category
  stress_color : String
  has_real_data : Bool
  hr_source : Source
  sleep_source : Source
  steps_source : Source
  calories_source : Source
deriving DecidableEq, Repr

/-- `np.mean` over a nonempty list of rationals (the source only calls it on
nonempty lists). -/
def mean (l : List ℚ) : ℚ := l.sum / (l.length : ℚ)

/-- Round-half-to-even to the nearest integer, as Python `round` does
(idealised over exact rationals). -/
def roundHalfEvenQ (x : ℚ) : ℤ :=
  if x - ⌊x⌋ < 1/2 then ⌊x⌋
  else if 1/2 < x - ⌊x⌋ then ⌊x⌋ + 1
  else if ⌊x⌋ % 2 = 0 then ⌊x⌋ else ⌊x⌋ + 1

/-- Python `round(x, 1)` idealised over exact rationals. -/
def round1 (x : ℚ) : ℚ := (roundHalfEvenQ (x * 10) : ℚ) / 10

/-- `calculate_stress_level` from `src/stress_analysis/services.py`
(lines 451-457), translated clause for clause:
baseline 50; `heart_rate > 80` adds `(heart_rate-80)*0.5`, else
`heart_rate < 60` adds `(60-heart_rate)*0.3`; `steps < 5000` adds
`(5000-steps)*0.001`; `sleep_duration < 6` adds `(6-sleep_duration)*5`;
finally `max(0, min(100, ...))`. The `calories` argument is accepted but
never used, exactly as in the source. -/
def calculate_stress_level (heart_rate steps sleep_duration calories : ℚ) : ℚ :=
  let stress_score : ℚ := 50
  let stress_score :=
    if heart_rate > 80 then stress_score + (heart_rate - 80) * (5/10)
    else if heart_rate < 60 then stress_score + (60 - heart_rate) * (3/10)
    else stress_score
  let stress_score :=
    if steps < 5000 then stress_score + (5000 - steps) * (1/1000)
    else stress_score
  let stress_score :=
    if sleep_duration < 6 then stress_score + (6 - sleep_duration) * 5
    else stress_score
  max 0 (min 100 stress_score)

/-- `categorize_stress` from `src/stress_analysis/services.py` (lines 459-463). -/
def categorize_stress (stress_level : ℚ) : Category × String :=
  if stress_level < 25 then (Category.LOW, "success")
  else if stress_level < 50 then (Category.MODERATE, "info")
  else if stress_level < 75 then (Category.HIGH, "warning")
  else (Category.VERY_HIGH, "danger")

/-- The body of the `while` loop of `process_health_data`
(`src/stress_analysis/services.py`, lines 348-436): build the aggregate entry
for one `current_date`. Each of the four metrics first collects the genuine
(`'google_fit'`) samples whose date equals `current_date.date()`; if there are
none it falls back to the `'demo'` samples of that date, and if there are none
of those either, to the constants 72 / 7.0 / 8000 / 2000. -/
def processDay (heart_rate_data : List HeartRateSample)
    (sleep_data : List SleepSample) (step_data : List StepSample)
    (calories_data : List CalorieSample) (current_date : ℤ) : DailyEntry :=
  let daily_heart_rates :=
    (heart_rate_data.filter fun hr =>
      dateOf hr.timestamp == dateOf current_date && hr.source == Source.google_fit).map
      (fun hr => hr.heart_rate)
  let daily_sleep :=
    (sleep_data.filter fun s =>
      dateOf s.start_time == dateOf current_date && s.source == Source.google_fit).map
      (fun s => s.duration_hours)
  let daily_steps :=
    (step_data.filter fun s =>
      dateOf s.timestamp == dateOf current_date && s.source == Source.google_fit).map
      (fun s => s.steps)
  let daily_calories :=
    (calories_data.filter fun c =>
      dateOf c.timestamp == dateOf current_date && c.source == Source.google_fit).map
      (fun c => c.calories)
  let hrPair : ℚ × Source :=
    if daily_heart_rates ≠ [] then (mean daily_heart_rates, Source.google_fit)
    else
      let demo_hr :=
        (heart_rate_data.filter fun hr =>
          dateOf hr.timestamp == dateOf current_date && hr.source == Source.demo).map
          (fun hr => hr.heart_rate)
      (if demo_hr ≠ [] then mean demo_hr else 72, Source.demo)
  let avg_heart_rate := hrPair.1
  let sleepPair : ℚ × Source :=
    if daily_sleep ≠ [] then (mean daily_sleep, Source.google_fit)
    else
      let demo_sleep :=
        (sleep_data.filter fun s =>
          dateOf s.start_time == dateOf current_date && s.source == Source.demo).map
          (fun s => s.duration_hours)
      (if demo_sleep ≠ [] then mean demo_sleep else 7, Source.demo)
  let sleep_duration := sleepPair.1
  let stepsPair : ℤ × Source :=
    if daily_steps ≠ [] then (daily_steps.sum, Source.google_fit)
    else
      let demo_steps :=
        (step_data.filter fun s =>
          dateOf s.timestamp == dateOf current_date && s.source == Source.demo).map
          (fun s => s.steps)
      (if demo_steps ≠ [] then demo_steps.sum else 8000, Source.demo)
  let total_steps : ℤ := stepsPair.1
  let caloriesPair : ℚ × Source :=
    if daily_calories ≠ [] then (daily_calories.sum, Source.google_fit)
    else
      let demo_calories :=
        (calories_data.filter fun c =>
          dateOf c.timestamp == dateOf current_date && c.source == Source.demo).map
          (fun c => c.calories)
      (if demo_calories ≠ [] then demo_calories.sum else 2000, Source.demo)
  let total_calories := caloriesPair.1
  let stress_level :=
    calculate_stress_level avg_heart_rate (total_steps : ℚ) sleep_duration total_calories
  let catPair := categorize_stress stress_level
  let has_real_data : Bool :=
    daily_heart_rates ≠ [] || daily_sleep ≠ [] || daily_steps ≠ [] || daily_calories ≠ []
  { date := dateOf current_date
    timestamp := current_date
    heart_rate := round1 avg_heart_rate
    sleep_duration := round1 sleep_duration
    steps := total_steps
    calories := round1 total_calories
    stress_level := round1 stress_level
    stress_category := catPair.1
    stress_color := catPair.2
    has_real_data := has_real_data
    hr_source := hrPair.2
    sleep_source := sleepPair.2
    steps_source := stepsPair.2
    calories_source := caloriesPair.2 }

/-- The `while current_date <= end_date and day_count < 7` loop of
`process_health_data`, written as recursion on the remaining iteration budget
`7 - day_count`; `current_date` advances by one day per iteration. -/
def processDays (now : ℤ) (heart_rate_data : List HeartRateSample)
    (sleep_data : List SleepSample) (step_data : List StepSample)
    (calories_data : List CalorieSample) : ℕ → ℤ → List DailyEntry
  | 0, _ => []
  | k + 1, current_date =>
    if current_date ≤ now then
      processDay heart_rate_data sleep_data step_data calories_data current_date ::
        processDays now heart_rate_data sleep_data step_data calories_data k
          (current_date + SECONDS_PER_DAY)
    else []

/-- `process_health_data` from `src/stress_analysis/services.py`
(lines 333-448): `end_date = now`, `start_date = now - 7 days`, then the loop
of `processDays` starting at `start_date` with budget 7. -/
def process_health_data (now : ℤ) (heart_rate_data : List HeartRateSample)
    (sleep_data : List SleepSample) (step_data : List StepSample)
    (calories_data : List CalorieSample) : List DailyEntry :=
  processDays now heart_rate_data sleep_data step_data calories_data 7
    (now - 7 * SECONDS_PER_DAY)

/-- The entry `process_health_data` produces for a day with no samples at all:
all four metrics fall back to their default constants, the stress score is 50,
and `categorize_stress 50 = (HIGH, 'warning')`. -/
def defaultEntry (c : ℤ) : DailyEntry :=
  ⟨dateOf c, c, 72, 7, 8000, 2000, 50, Category.HIGH, "warning", false,
    Source.demo, Source.demo, Source.demo, Source.demo⟩

/-- Round-half-to-even to the nearest integer over `ℝ`, as Python `round`
does (idealised over exact arithmetic). -/
noncomputable def roundHalfEvenR (x : ℝ) : ℤ :=
  if x - ⌊x⌋ < 1/2 then ⌊x⌋
  else if 1/2 < x - ⌊x⌋ then ⌊x⌋ + 1
  else if ⌊x⌋ % 2 = 0 then ⌊x⌋ else ⌊x⌋ + 1

/-- Python `round(x, 2)` idealised over exact arithmetic. -/
noncomputable def pythonRound2 (x : ℝ) : ℝ := (roundHalfEvenR (x * 100) : ℝ) / 100

/-- The denominator `den = ((sum1_sq - sum1*sum1/n) * (sum2_sq - sum2*sum2/n)) ** 0.5`
computed by `calculate_correlation` (with `n` the length of the respective list;
the source uses `n = len(array1)` for both, and only reads `den` after checking
the two lengths are equal). -/
noncomputable def corrDen (array1 array2 : List ℝ) : ℝ :=
  Real.sqrt
    (((array1.map fun x => x * x).sum - array1.sum * array1.sum / array1.length) *
      ((array2.map fun x => x * x).sum - array2.sum * array2.sum / array2.length))

/-- `calculate_correlation` from `src/stress_analysis/views.py` (lines
976-991), translated clause for clause. Reals are used because the source
takes a square root; `x ** 0.5` is `Real.sqrt x` (the inputs the source feeds
it are sums of squares times nonnegative variances, so the radicand is
nonnegative). -/
noncomputable def calculate_correlation (array1 array2 : List ℝ) : ℝ :=
  let n := array1.length
  if n ≠ array2.length ∨ n = 0 then 0
  else
    let sum1 := array1.sum
    let sum2 := array2.sum
    let sum1_sq := (array1.map fun x => x * x).sum
    let sum2_sq := (array2.map fun x => x * x).sum
    let p_sum := (List.zipWith (fun a b => a * b) array1 array2).sum
    let num := p_sum - sum1 * sum2 / (n : ℝ)
    let den :=
      Real.sqrt ((sum1_sq - sum1 * sum1 / (n : ℝ)) * (sum2_sq - sum2 * sum2 / (n : ℝ)))
    if den ≠ 0 then pythonRound2 (num / den) else 0

/-! ## Helper lemmas -/

lemma round1_intCast (n : ℤ) : round1 (n : ℚ) = n := by
  have h1 : ((n : ℚ) * 10) = ((n * 10 : ℤ) : ℚ) := by push_cast; ring
  have h2 : roundHalfEvenQ ((n : ℚ) * 10) = n * 10 := by
    rw [h1]
    unfold roundHalfEvenQ
    rw [Int.floor_intCast]
    norm_num
  rw [round1, h2]
  push_cast
  ring

lemma dateOf_add_mul (t m : ℤ) : dateOf (t + m * SECONDS_PER_DAY) = dateOf t + m :=
  Int.add_mul_ediv_right t m (by unfold SECONDS_PER_DAY; norm_num)

lemma processDay_date (hr : List HeartRateSample) (sl : List SleepSample)
    (st : List StepSample) (ca : List CalorieSample) (c : ℤ) :
    (processDay hr sl st ca c).date = dateOf c := rfl

lemma processDays_eq (now : ℤ) (hr : List HeartRateSample) (sl : List SleepSample)
    (st : List StepSample) (ca : List CalorieSample) : ∀ (k : ℕ) (c : ℤ),
    (∀ i : ℕ, i < k → c + i * SECONDS_PER_DAY ≤ now) →
    processDays now hr sl st ca k c =
      (List.range k).map (fun i : ℕ => processDay hr sl st ca (c + (i : ℤ) * SECONDS_PER_DAY)) := by
  intro k
  induction k with
  | zero => intro c _; simp [processDays]
  | succ n ih =>
    intro c h
    have h0 : c ≤ now := by simpa using h 0 (Nat.succ_pos n)
    have hrec : ∀ i : ℕ, i < n → c + SECONDS_PER_DAY + i * SECONDS_PER_DAY ≤ now := by
      intro i hi
      have := h (i + 1) (by omega)
      push_cast at this
      linarith
    rw [processDays, if_pos h0, ih (c + SECONDS_PER_DAY) hrec]
    rw [List.range_succ_eq_map, List.map_cons, List.map_map]
    congr 1
    · norm_num
    · apply List.map_congr_left
      intro i _
      simp only [Function.comp_apply]
      congr 1
      push_cast
      ring

lemma process_health_data_eq (now : ℤ) (hr : List HeartRateSample) (sl : List SleepSample)
    (st : List StepSample) (ca : List CalorieSample) :
    process_health_data now hr sl st ca =
      (List.range 7).map
        (fun i : ℕ =>
          processDay hr sl st ca (now - 7 * SECONDS_PER_DAY + (i : ℤ) * SECONDS_PER_DAY)) := by
  apply processDays_eq
  intro i hi
  have : (i : ℤ) ≤ 6 := by exact_mod_cast Nat.le_of_lt_succ hi
  unfold SECONDS_PER_DAY
  linarith

lemma round1_ofNat (n : ℕ) : round1 (n : ℚ) = n := by exact_mod_cast round1_intCast n

lemma processDay_nil (c : ℤ) : processDay [] [] [] [] c = defaultEntry c := by
  have h72 : round1 72 = 72 := round1_ofNat 72
  have h7 : round1 7 = 7 := round1_ofNat 7
  have h2000 : round1 2000 = 2000 := round1_ofNat 2000
  have h50 : round1 50 = 50 := round1_ofNat 50
  norm_num [processDay, defaultEntry, calculate_stress_level, categorize_stress,
    h72, h7, h2000, h50]

lemma process_health_data_map_date (now : ℤ) (hr : List HeartRateSample)
    (sl : List SleepSample) (st : List StepSample) (ca : List CalorieSample) :
    (process_health_data now hr sl st ca).map (fun e => e.date) =
      [dateOf now - 7, dateOf now - 6, dateOf now - 5, dateOf now - 4,
        dateOf now - 3, dateOf now - 2, dateOf now - 1] := by
  have key : ∀ i : ℕ,
      dateOf (now - 7 * SECONDS_PER_DAY + (i : ℤ) * SECONDS_PER_DAY)
        = dateOf now + ((i : ℤ) - 7) := by
    intro i
    have e1 : now - 7 * SECONDS_PER_DAY + (i : ℤ) * SECONDS_PER_DAY
        = now + ((i : ℤ) - 7) * SECONDS_PER_DAY := by ring
    rw [e1, dateOf_add_mul]
  rw [process_health_data_eq, List.map_map]
  simp only [Function.comp_def, processDay_date, key]
  norm_num [List.range_succ]
  omega

lemma defaultEntry_mem : defaultEntry (-604800) ∈ process_health_data 0 [] [] [] [] := by
  rw [process_health_data_eq]
  refine List.mem_map.mpr ⟨0, by norm_num, ?h⟩
  rw [show (0 : ℤ) - 7 * SECONDS_PER_DAY + ((0 : ℕ) : ℤ) * SECONDS_PER_DAY = -604800 by
    unfold SECONDS_PER_DAY; norm_num]
  exact processDay_nil (-604800)

lemma processDay_two_hr (t1 t2 c : ℤ) (h1 : dateOf t1 = dateOf c) (h2 : dateOf t2 = dateOf c) :
    processDay [⟨t1, 70, Source.google_fit⟩, ⟨t2, 90, Source.google_fit⟩] [] [] [] c =
      ⟨dateOf c, c, 80, 7, 8000, 2000, 50, Category.HIGH, "warning", true,
        Source.google_fit, Source.demo, Source.demo, Source.demo⟩ := by
  have h80 : round1 80 = 80 := round1_ofNat 80
  have h7 : round1 7 = 7 := round1_ofNat 7
  have h2000 : round1 2000 = 2000 := round1_ofNat 2000
  have h50 : round1 50 = 50 := round1_ofNat 50
  simp [processDay, h1, h2, mean]
  norm_num [calculate_stress_level, categorize_stress, h80, h7, h2000, h50]

/-! ## Claims -/

/-- Claim C1, corrected. With all four input collections empty, every one of
the emitted daily aggregates uses the default values (heart rate 72, sleep
7.0, steps 8000, calories 2000), has stress score 50 and `has_real_data =
false`; however the stress category of score 50 is HIGH, not MODERATE, since
`categorize_stress` tests `stress_level < 50` strictly. -/
theorem C1_empty_inputs_defaults (now : ℤ) (e : DailyEntry)
    (he : e ∈ process_health_data now [] [] [] []) :
    e.heart_rate = 72 ∧ e.sleep_duration = 7 ∧ e.steps = 8000 ∧ e.calories = 2000 ∧
      e.stress_level = 50 ∧ e.stress_category = Category.HIGH ∧ e.has_real_data = false := by
  rw [process_health_data_eq] at he
  obtain ⟨i, -, rfl⟩ := List.mem_map.mp he
  rw [processDay_nil]
  exact ⟨rfl, rfl, rfl, rfl, rfl, rfl, rfl⟩

/-- Witness for C1: the theorem applied at `now = 0` and the concrete first
emitted entry. -/
theorem C1_empty_inputs_defaults_witness :
    (defaultEntry (-604800)).heart_rate = 72 ∧ (defaultEntry (-604800)).sleep_duration = 7 ∧
      (defaultEntry (-604800)).steps = 8000 ∧ (defaultEntry (-604800)).calories = 2000 ∧
      (defaultEntry (-604800)).stress_level = 50 ∧
      (defaultEntry (-604800)).stress_category = Category.HIGH ∧
      (defaultEntry (-604800)).has_real_data = false :=
  C1_empty_inputs_defaults 0 (defaultEntry (-604800)) defaultEntry_mem

/-- Counterexample for C1 as stated: at `now = 0` with all inputs empty, not
every emitted aggregate has stress category MODERATE (they all have HIGH). -/
theorem C1_counterexample :
    ¬ (∀ e ∈ process_health_data 0 [] [] [] [], e.stress_category = Category.MODERATE) := by
  intro h
  have := h (defaultEntry (-604800)) defaultEntry_mem
  simp [defaultEntry] at this

/-- Claim C2, corrected. For every invocation, the emitted aggregates cover
exactly the 7 calendar days `dateOf now - 7, ..., dateOf now - 1`, regardless
of the supplied sample history — but the day of the call (`dateOf now`) is NOT
among them: the loop runs `day_count < 7` times starting at `now - 7 days`,
stopping one day short of `now`. -/
theorem C2_window_days (now : ℤ) (hr : List HeartRateSample) (sl : List SleepSample)
    (st : List StepSample) (ca : List CalorieSample) :
    (process_health_data now hr sl st ca).map (fun e => e.date) =
      [dateOf now - 7, dateOf now - 6, dateOf now - 5, dateOf now - 4,
        dateOf now - 3, dateOf now - 2, dateOf now - 1] ∧
      dateOf now ∉ (process_health_data now hr sl st ca).map (fun e => e.date) := by
  refine ⟨process_health_data_map_date now hr sl st ca, ?notin⟩
  rw [process_health_data_map_date]
  simp only [List.mem_cons, List.not_mem_nil, or_false]
  omega

/-- Counterexample for C2 as stated: at `now = 0` the day of the call is not
among the emitted days. -/
theorem C2_counterexample :
    dateOf 0 ∉ (process_health_data 0 [] [] [] []).map (fun e => e.date) := by
  rw [process_health_data_map_date]
  decide

/-- Claim C3, confirmed: for every input (empty or arbitrarily large), the
aggregator returns exactly 7 daily aggregates, ordered oldest day first
(strictly increasing dates). -/
theorem C3_seven_entries_ascending (now : ℤ) (hr : List HeartRateSample)
    (sl : List SleepSample) (st : List StepSample) (ca : List CalorieSample) :
    (process_health_data now hr sl st ca).length = 7 ∧
      ((process_health_data now hr sl st ca).map (fun e => e.date)).Pairwise (· < ·) := by
  constructor
  · rw [process_health_data_eq]; simp
  · rw [process_health_data_map_date]
    norm_num [List.pairwise_cons]

/-- Counterexample for C4 as stated: at heart rate 70, steps 8000, calories
2000, moving sleep from 10 to 12 hours leaves the score at 50 instead of
adding `(12 - 10) * 2`. -/
theorem C4_counterexample : ¬ (calculate_stress_level 70 8000 12 2000
    = calculate_stress_level 70 8000 10 2000 + (12 - 10) * 2) := by
  norm_num [calculate_stress_level]

/-- Claim C4, corrected. `calculate_stress_level` in
`src/stress_analysis/services.py` has no `sleep_hours > 10` branch at all: for
every sleep duration of at least 6 hours the score is identical to the score
at exactly 6 hours, so sleeping more than 10 hours adds nothing. -/
theorem C4_no_oversleep_adjustment (heart_rate steps calories s : ℚ) (h : 6 ≤ s) :
    calculate_stress_level heart_rate steps s calories
      = calculate_stress_level heart_rate steps 6 calories := by
  simp only [calculate_stress_level, if_neg (show ¬ s < 6 by linarith),
    if_neg (show ¬ (6 : ℚ) < 6 by norm_num)]

/-- Witness for C4: the theorem applied at sleep 12 hours. -/
theorem C4_no_oversleep_adjustment_witness :
    (6 : ℚ) ≤ 12 ∧ calculate_stress_level 70 8000 12 2000
      = calculate_stress_level 70 8000 6 2000 :=
  ⟨by norm_num, C4_no_oversleep_adjustment 70 8000 2000 12 (by norm_num)⟩

/-- Counterexample for C5 as stated: at heart rate 70, sleep 7, calories 2000,
moving steps from 15000 to 20000 leaves the score at 50 instead of adding
`(20000 - 15000) * 0.0005`. -/
theorem C5_counterexample : ¬ (calculate_stress_level 70 20000 7 2000
    = calculate_stress_level 70 15000 7 2000 + (20000 - 15000) * (5/10000)) := by
  norm_num [calculate_stress_level]

/-- Claim C5, corrected. `calculate_stress_level` in
`src/stress_analysis/services.py` has no `steps > 15000` branch: for every
step count of at least 5000 the score is identical to the score at exactly
5000 steps, so exceeding 15000 steps adds nothing. -/
theorem C5_no_overstep_adjustment (heart_rate sleep_duration calories st : ℚ)
    (h : 5000 ≤ st) :
    calculate_stress_level heart_rate st sleep_duration calories
      = calculate_stress_level heart_rate 5000 sleep_duration calories := by
  simp only [calculate_stress_level, if_neg (show ¬ st < 5000 by linarith),
    if_neg (show ¬ (5000 : ℚ) < 5000 by norm_num)]

/-- Witness for C5: the theorem applied at 20000 steps. -/
theorem C5_no_overstep_adjustment_witness :
    (5000 : ℚ) ≤ 20000 ∧ calculate_stress_level 70 20000 7 2000
      = calculate_stress_level 70 5000 7 2000 :=
  ⟨by norm_num, C5_no_overstep_adjustment 70 7 2000 20000 (by norm_num)⟩

/-- Counterexample for C6 as stated: heart rates 85 and 55 are equally far
from 70, yet the score at 85 (52.5, slope 0.5 above 80) strictly exceeds the
score at 55 (51.5, slope 0.3 below 60), so the score is not monotone in
`|heart_rate - 70|` across the two sides. -/
theorem C6_counterexample :
    |(85 : ℚ) - 70| ≤ |(55 : ℚ) - 70| ∧
      ¬ (calculate_stress_level 85 8000 7 2000 ≤ calculate_stress_level 55 8000 7 2000) := by
  constructor
  · norm_num
  · norm_num [calculate_stress_level]

/-- Claim C6, corrected. The score is monotone in the heart-rate deviation
only one side of 70 at a time: non-decreasing in `heart_rate` for
`heart_rate ≥ 70` and non-increasing for `heart_rate ≤ 70` (the asymmetric
slopes 0.5 and 0.3 break monotonicity in `|heart_rate - 70|` across sides).
Monotonicity in the sleep deficit below 6 hours and in the step deficit below
5000, holding the other inputs fixed, holds as claimed. -/
theorem C6_monotonicity_per_side :
    (∀ hr1 hr2 st s ca : ℚ, 70 ≤ hr1 → hr1 ≤ hr2 →
      calculate_stress_level hr1 st s ca ≤ calculate_stress_level hr2 st s ca) ∧
    (∀ hr1 hr2 st s ca : ℚ, hr2 ≤ hr1 → hr1 ≤ 70 →
      calculate_stress_level hr1 st s ca ≤ calculate_stress_level hr2 st s ca) ∧
    (∀ hr st ca s1 s2 : ℚ, s2 ≤ s1 → s1 < 6 →
      calculate_stress_level hr st s1 ca ≤ calculate_stress_level hr st s2 ca) ∧
    (∀ hr s ca st1 st2 : ℚ, st2 ≤ st1 → st1 < 5000 →
      calculate_stress_level hr st1 s ca ≤ calculate_stress_level hr st2 s ca) := by
  refine ⟨?hrUp, ?hrDn, ?sleepDef, ?stepDef⟩ <;>
  · intro a b c d e h1 h2
    simp only [calculate_stress_level]
    exact max_le_max le_rfl (min_le_min le_rfl (by split_ifs <;> linarith))

/-- Witness for C6: each monotonicity conjunct applied at concrete inputs. -/
theorem C6_monotonicity_per_side_witness :
    calculate_stress_level 75 8000 7 2000 ≤ calculate_stress_level 85 8000 7 2000 ∧
      calculate_stress_level 65 8000 7 2000 ≤ calculate_stress_level 55 8000 7 2000 ∧
      calculate_stress_level 70 8000 5 2000 ≤ calculate_stress_level 70 8000 4 2000 ∧
      calculate_stress_level 70 4000 7 2000 ≤ calculate_stress_level 70 3000 7 2000 :=
  ⟨C6_monotonicity_per_side.1 75 85 8000 7 2000 (by norm_num) (by norm_num),
    C6_monotonicity_per_side.2.1 65 55 8000 7 2000 (by norm_num) (by norm_num),
    C6_monotonicity_per_side.2.2.1 70 8000 2000 5 4 (by norm_num) (by norm_num),
    C6_monotonicity_per_side.2.2.2 70 7 2000 4000 3000 (by norm_num) (by norm_num)⟩

/-- Claim C7, confirmed: for every input the stress score lies in [0, 100]
(the final `max(0, min(100, ...))` clamp). -/
theorem C7_score_in_range (heart_rate steps sleep_duration calories : ℚ) :
    0 ≤ calculate_stress_level heart_rate steps sleep_duration calories ∧
      calculate_stress_level heart_rate steps sleep_duration calories ≤ 100 := by
  unfold calculate_stress_level
  exact ⟨le_max_left _ _, max_le (by norm_num) (min_le_left _ _)⟩

/-- Claim C8, confirmed: with exactly two genuine heart-rate samples of values
70 and 90 on the same day `d0` inside the emitted window (and all other inputs
empty), the aggregate emitted for `d0` has heart rate 80 (their mean),
`has_real_data = true`, and default values for the other metrics. -/
theorem C8_two_sample_day (now t1 t2 d0 : ℤ)
    (ht1 : dateOf t1 = d0) (ht2 : dateOf t2 = d0)
    (hlo : dateOf now - 7 ≤ d0) (hhi : d0 < dateOf now) :
    (∃ e ∈ process_health_data now
        [⟨t1, 70, Source.google_fit⟩, ⟨t2, 90, Source.google_fit⟩] [] [] [], e.date = d0) ∧
    ∀ e ∈ process_health_data now
        [⟨t1, 70, Source.google_fit⟩, ⟨t2, 90, Source.google_fit⟩] [] [] [],
      e.date = d0 →
        e.heart_rate = 80 ∧ e.has_real_data = true ∧ e.steps = 8000 ∧
          e.sleep_duration = 7 ∧ e.calories = 2000 := by
  constructor
  · rw [process_health_data_eq]
    refine ⟨processDay [⟨t1, 70, Source.google_fit⟩, ⟨t2, 90, Source.google_fit⟩] [] [] []
        (now - 7 * SECONDS_PER_DAY + ((d0 - (dateOf now - 7)).toNat : ℤ) * SECONDS_PER_DAY),
      List.mem_map.mpr ⟨(d0 - (dateOf now - 7)).toNat, List.mem_range.mpr (by omega), rfl⟩,
      ?dEq⟩
    rw [processDay_date]
    have e1 : now - 7 * SECONDS_PER_DAY + ((d0 - (dateOf now - 7)).toNat : ℤ) * SECONDS_PER_DAY
        = now + (((d0 - (dateOf now - 7)).toNat : ℤ) - 7) * SECONDS_PER_DAY := by ring
    rw [e1, dateOf_add_mul]
    omega
  · intro e he hdate
    rw [process_health_data_eq] at he
    obtain ⟨i, -, rfl⟩ := List.mem_map.mp he
    rw [processDay_date] at hdate
    rw [processDay_two_hr t1 t2 _ (by rw [ht1, ← hdate]) (by rw [ht2, ← hdate])]
    exact ⟨rfl, rfl, rfl, rfl, rfl⟩

/-- Witness for C8: the theorem applied at `now = 604800` (day 7) with two
genuine samples at timestamps 0 and 3600 (both on day 0, inside the window). -/
theorem C8_two_sample_day_witness :
    (∃ e ∈ process_health_data 604800
        [⟨0, 70, Source.google_fit⟩, ⟨3600, 90, Source.google_fit⟩] [] [] [], e.date = 0) ∧
    ∀ e ∈ process_health_data 604800
        [⟨0, 70, Source.google_fit⟩, ⟨3600, 90, Source.google_fit⟩] [] [] [],
      e.date = 0 →
        e.heart_rate = 80 ∧ e.has_real_data = true ∧ e.steps = 8000 ∧
          e.sleep_duration = 7 ∧ e.calories = 2000 :=
  C8_two_sample_day 604800 0 3600 0 (by decide) (by decide) (by decide) (by decide)

/-- Claim C9, confirmed: `calculate_correlation` returns 0 whenever the two
sequences have different lengths, are empty, or have zero denominator, and in
particular on any two constant sequences, rather than raising an error. -/
theorem C9_correlation_degenerate_zero :
    (∀ a1 a2 : List ℝ, a1.length ≠ a2.length ∨ a1.length = 0 ∨ corrDen a1 a2 = 0 →
      calculate_correlation a1 a2 = 0) ∧
    (∀ (c1 c2 : ℝ) (n : ℕ),
      calculate_correlation (List.replicate n c1) (List.replicate n c2) = 0) := by
  constructor
  · intro a1 a2 h
    simp only [calculate_correlation]
    rcases h with h | h | h
    · rw [if_pos (Or.inl h)]
    · rw [if_pos (Or.inr h)]
    · by_cases hlen : a1.length ≠ a2.length ∨ a1.length = 0
      · rw [if_pos hlen]
      · rw [if_neg hlen]
        push_neg at hlen
        obtain ⟨heq, -⟩ := hlen
        have h2 : Real.sqrt
            (((a1.map fun x => x * x).sum - a1.sum * a1.sum / (a1.length : ℝ)) *
              ((a2.map fun x => x * x).sum - a2.sum * a2.sum / (a1.length : ℝ))) = 0 := by
          unfold corrDen at h
          rw [← heq] at h
          exact h
        rw [if_neg (not_not_intro h2)]
  · intro c1 c2 n
    rcases Nat.eq_zero_or_pos n with hn | hn
    · subst hn
      simp [calculate_correlation]
    · have hn' : ((n : ℕ) : ℝ) ≠ 0 := Nat.cast_ne_zero.mpr (by omega)
      simp only [calculate_correlation, List.length_replicate]
      rw [if_neg (by omega : ¬ (n ≠ n ∨ n = 0))]
      have key : (((List.replicate n c1).map fun x => x * x).sum
          - (List.replicate n c1).sum * (List.replicate n c1).sum / ((n : ℕ) : ℝ)) = 0 := by
        simp only [List.map_replicate, List.sum_replicate, nsmul_eq_mul]
        field_simp
        ring
      rw [key, zero_mul, Real.sqrt_zero]
      simp

/-- Witness for C9: two constant sequences of length 2, and a length-mismatched
pair. -/
theorem C9_correlation_degenerate_zero_witness :
    calculate_correlation (List.replicate 2 (1 : ℝ)) (List.replicate 2 (2 : ℝ)) = 0 ∧
      calculate_correlation [(1 : ℝ)] [] = 0 :=
  ⟨C9_correlation_degenerate_zero.2 1 2 2,
    C9_correlation_degenerate_zero.1 [(1 : ℝ)] [] (Or.inl (by simp))⟩

/-- Claim C10, confirmed: the calories argument has no effect on the stress
score (the source accepts it and never reads it). -/
theorem C10_calories_no_influence (heart_rate steps sleep_duration c1 c2 : ℚ) :
    calculate_stress_level heart_rate steps sleep_duration c1
      = calculate_stress_level heart_rate steps sleep_duration c2 := rfl

end DocterPortal
